import Mathlib

/-!
Verification development for the haul-slip service (`src/app.py`).

The slip ingestion pipeline (validation, persistence, daily CSV side-export)
and the Kimai lookup proxy (configuration checks, TTL cache, upstream error
translation) are embedded shallowly:

* a submitted JSON body is a string-keyed mapping with string values,
  modelled as an association list (`Data`); Python falsiness of a string
  value is "absent or empty";
* the SQLite store is a list of rows; a failing `INSERT` is modelled by the
  boolean `insertOk` parameter;
* the export directory is a map from file name to CSV row lists (header and
  data rows at the row level; the `csv` module's quoting is injective and is
  not re-modelled);
* `time.time()` instants are naturals; network traffic is a parameter
  (`UpstreamOutcome`) describing what one `requests.get` would observe.
-/

namespace HaulSlips

/-- A loosely typed field mapping (a JSON object with string values),
as produced by `request.get_json`. Keys are unique in an actual dict;
lookup takes the first binding. -/
abbrev Data := List (String × String)

/-- `d.get(key)` on the mapping: first binding for `key`, if any. -/
def dget : Data → String → Option String
  | [], _ => none
  | (k, v) :: rest, key => if k = key then some v else dget rest key

/-- `d.get(key, dflt)` / `d.get(key) or dflt` for string values. -/
def dgetD (d : Data) (k : String) (dflt : String) : String :=
  (dget d k).getD dflt

/-- Python falsiness of an optional string value: absent or empty. -/
def falsy (o : Option String) : Bool :=
  o.getD "" == ""

/-- `REQUIRED_FIELDS` from `app.py` lines 27-37, in canonical order. -/
def REQUIRED_FIELDS : List String :=
  ["date", "driver", "truck_number", "job", "haul_to",
   "start_time", "end_time", "material", "signature_name"]

/-- `[field for field in REQUIRED_FIELDS if not data.get(field)]`
(`app.py` line 68). -/
def missingFields (data : Data) : List String :=
  REQUIRED_FIELDS.filter (fun f => falsy (dget data f))

/-! ## Time parsing (`_valid_time_order`, `app.py` lines 180-186)

`datetime.strptime(s, "%H:%M")` matches, anchored at both ends of the
string, the pattern `(2[0-3]|[0-1]\d|\d)` then `:` then `([0-5]\d|\d)`
(CPython `_strptime` regexes for `%H` and `%M`; digits modelled as ASCII).
Both values land on the same reference day, so `start_dt < end_dt` is the
lexicographic order on (hour, minute). -/

/-- Numeric value of an ASCII digit. -/
def digitVal (c : Char) : Nat := c.toNat - '0'.toNat

/-- Match `%H` (`2[0-3]|[0-1]\d|\d`) at the head of the character list,
returning the hour and the unconsumed remainder. -/
def parseH : List Char → Option (Nat × List Char)
  | c1 :: c2 :: rest =>
    if c1 = '2' ∧ '0' ≤ c2 ∧ c2 ≤ '3' then
      some (20 + digitVal c2, rest)
    else if ('0' ≤ c1 ∧ c1 ≤ '1') ∧ c2.isDigit then
      some (10 * digitVal c1 + digitVal c2, rest)
    else if c1.isDigit then
      some (digitVal c1, c2 :: rest)
    else none
  | [c1] => if c1.isDigit then some (digitVal c1, []) else none
  | [] => none

/-- Match `%M` (`[0-5]\d|\d`) at the head of the character list. -/
def parseM : List Char → Option (Nat × List Char)
  | c1 :: c2 :: rest =>
    if ('0' ≤ c1 ∧ c1 ≤ '5') ∧ c2.isDigit then
      some (10 * digitVal c1 + digitVal c2, rest)
    else if c1.isDigit then
      some (digitVal c1, c2 :: rest)
    else none
  | [c1] => if c1.isDigit then some (digitVal c1, []) else none
  | [] => none

/-- `datetime.strptime(s, "%H:%M")`, reduced to the (hour, minute) pair it
produces; `none` when parsing raises. The whole string must be consumed
(`strptime` rejects unconverted leading or trailing data). -/
def parseHM (s : String) : Option (Nat × Nat) :=
  match parseH s.data with
  | none => none
  | some (h, rest) =>
    match rest with
    | ':' :: rest2 =>
      match parseM rest2 with
      | some (m, []) => some (h, m)
      | _ => none
    | _ => none

/-- `start_dt < end_dt` for two times on the same reference day. -/
def hmLt (a b : Nat × Nat) : Bool :=
  a.1 < b.1 || (a.1 == b.1 && a.2 < b.2)

/-- `_valid_time_order` (`app.py` lines 180-186): any parse failure is
caught and yields `False`. -/
def valid_time_order (start stop : String) : Bool :=
  match parseHM start, parseHM stop with
  | some a, some b => hmLt a b
  | _, _ => false

/-! ## CSV export (`_append_csv_export`, `_rows_to_csv`) -/

/-- The fixed 15-element `fieldnames` list (`app.py` lines 194-210 and
220-236). -/
def FIELDNAMES : List String :=
  ["id", "date", "driver", "truck_number", "foreman", "job", "haul_from",
   "haul_to", "start_time", "end_time", "material", "signature_name",
   "notes", "created_at", "updated_at"]

/-- `{key: slip.get(key, "") for key in fieldnames}` rendered as one CSV
data row in fieldname order. -/
def csvRow (slip : Data) : List String :=
  FIELDNAMES.map (fun k => dgetD slip k "")

/-- `_rows_to_csv` (`app.py` lines 219-243) at the row level: header row
followed by one data row per input row, in the given order. -/
def rows_to_csv (rows : List Data) : List (List String) :=
  FIELDNAMES :: rows.map csvRow

/-- A calendar date, as produced by `date.today()`. -/
structure Date where
  year : Nat
  month : Nat
  day : Nat
deriving DecidableEq

/-- Left-pad the decimal rendering of `n` with zeros to width `w`. -/
def padZeros (w : Nat) (n : Nat) : String :=
  let s := toString n
  String.mk (List.replicate (w - s.length) '0') ++ s

/-- `date.isoformat()`: `YYYY-MM-DD` with zero padding. -/
def isoDate (d : Date) : String :=
  padZeros 4 d.year ++ "-" ++ padZeros 2 d.month ++ "-" ++ padZeros 2 d.day

/-- `f"slips-{date.today().isoformat()}.csv"` (`app.py` line 190). -/
def exportFileName (today : Date) : String :=
  "slips-" ++ isoDate today ++ ".csv"

/-- The export directory: file name to CSV content (row list), `none` when
the file does not exist. -/
abbrev Files := String → Option (List (List String))

/-- The export directory with no files. -/
def emptyFiles : Files := fun _ => none

/-- `_append_csv_export` (`app.py` lines 189-216): open today's file in
append mode, write the header first iff the file did not exist, then
append exactly one data row. -/
def append_csv_export (files : Files) (today : Date) (slip : Data) : Files :=
  let name := exportFileName today
  fun n =>
    if n = name then
      match files name with
      | none => some [FIELDNAMES, csvRow slip]
      | some content => some (content ++ [csvRow slip])
    else files n

/-! ## Slip creation (`create_slip`, `app.py` lines 64-110) -/

/-- Side effects of one `create_slip` call, in program order. -/
inductive Event
  | storeInsert
  | csvAppend
deriving DecidableEq

/-- The response of `create_slip`: the two 400 validation errors, the
propagated storage exception, or 201 with the slip body. -/
inductive CreateResult
  | missingFieldsErr (fields : List String)
  | invalidTimeOrderErr
  | storageErr
  | created (slip : Data)
deriving DecidableEq

/-- Result, store, export directory and event trace after one
`create_slip` call. -/
structure CreateOutcome where
  result : CreateResult
  store : List Data
  files : Files
  events : List Event

/-- The `slip` dict built at `app.py` lines 78-94.  Required fields have
passed the presence check, so `data.get(f)` is their submitted value and
equals `dgetD data f ""`; for the optional fields `data.get(f) or ""`
collapses both absence and the empty string to `""`, which is again
`dgetD data f ""` on string values. -/
def buildSlip (data : Data) (now slipId : String) : Data :=
  [("id", slipId),
   ("date", dgetD data "date" ""),
   ("driver", dgetD data "driver" ""),
   ("truck_number", dgetD data "truck_number" ""),
   ("foreman", dgetD data "foreman" ""),
   ("job", dgetD data "job" ""),
   ("haul_from", dgetD data "haul_from" ""),
   ("haul_to", dgetD data "haul_to" ""),
   ("start_time", dgetD data "start_time" ""),
   ("end_time", dgetD data "end_time" ""),
   ("material", dgetD data "material" ""),
   ("signature_name", dgetD data "signature_name" ""),
   ("notes", dgetD data "notes" ""),
   ("created_at", now),
   ("updated_at", now)]

/-- `create_slip` (`app.py` lines 64-110). `now` is the shared
creation/update timestamp, `slipId` the generated UUID, `insertOk` whether
the SQLite `INSERT` succeeds (a raised `sqlite3` error propagates out of
the handler before `_append_csv_export` is reached). -/
def create_slip (data : Data) (now slipId : String) (insertOk : Bool)
    (store : List Data) (files : Files) (today : Date) : CreateOutcome :=
  let missing := missingFields data
  if missing = [] then
    if valid_time_order (dgetD data "start_time" "") (dgetD data "end_time" "") then
      let slip := buildSlip data now slipId
      if insertOk then
        ⟨.created slip, store ++ [slip],
         append_csv_export files today slip, [.storeInsert, .csvAppend]⟩
      else
        ⟨.storageErr, store, files, [.storeInsert]⟩
    else
      ⟨.invalidTimeOrderErr, store, files, []⟩
  else
    ⟨.missingFieldsErr missing, store, files, []⟩

/-! ## Listing (`list_slips`, `app.py` lines 49-62)

`SELECT * FROM slips ORDER BY date DESC, created_at DESC LIMIT ?`; on the
stored TEXT columns SQLite's BINARY collation compares UTF-8 bytes, which
coincides with Lean's code-point order on `String`. -/

/-- The ORDER BY key of a stored row. -/
def sortKey (s : Data) : String × String :=
  (dgetD s "date" "", dgetD s "created_at" "")

/-- `a` may precede `b` under `ORDER BY date DESC, created_at DESC`. -/
def slipBefore (a b : Data) : Prop :=
  (sortKey b).1 < (sortKey a).1 ∨
    ((sortKey b).1 = (sortKey a).1 ∧ (sortKey b).2 ≤ (sortKey a).2)

instance : DecidableRel slipBefore := fun a b =>
  inferInstanceAs (Decidable ((sortKey b).1 < (sortKey a).1 ∨
    ((sortKey b).1 = (sortKey a).1 ∧ (sortKey b).2 ≤ (sortKey a).2)))

/-- `list_slips`: rows sorted by the DESC key, truncated to `limit`. -/
def list_slips (store : List Data) (limit : Nat) : List Data :=
  (List.insertionSort slipBefore store).take limit

/-! ## Kimai integration (`app.py` lines 246-322)

Configuration (`KIMAI_URL`, `KIMAI_USER`, `KIMAI_TOKEN`, `KIMAI_AUTH`) is
read once at module load; `os.getenv` yields `none` for unset variables.
`KimaiError` carries only a message string, so the error a caller sees is
modelled as that string. -/

/-- The load-time Kimai configuration. `auth` is already lowercased. -/
structure KimaiConfig where
  url : Option String
  user : Option String
  token : Option String
  auth : String

/-- Python falsiness of an optional environment string (`not KIMAI_URL`):
unset or empty. -/
def ostrFalsy (o : Option String) : Bool :=
  o.getD "" == ""

/-- One item of the decoded upstream JSON list, restricted to the keys the
code reads; `none` marks an absent key. -/
structure Item where
  id : Option Int
  name : Option String
  visible : Option Bool
deriving DecidableEq

/-- `{"id": item.get("id"), "name": item.get("name")}`. -/
structure Client where
  id : Option Int
  name : Option String
deriving DecidableEq

/-- `str.lower()` on one character, restricted to ASCII. -/
def lowerChar (c : Char) : Char :=
  if 'A' ≤ c ∧ c ≤ 'Z' then Char.ofNat (c.toNat + 32) else c

/-- The sort key `(c["name"] or "").lower()` as its character sequence. -/
def nameKey (c : Client) : List Char :=
  (c.name.getD "").data.map lowerChar

/-- Python string comparison: lexicographic on code points. -/
def charListLe : List Char → List Char → Bool
  | [], _ => true
  | _ :: _, [] => false
  | c :: cs, d :: ds =>
    if c.toNat < d.toNat then true
    else if d.toNat < c.toNat then false
    else charListLe cs ds

/-- Ordering used by `list.sort(key=...)` on the lowered names. -/
def clientLe (a b : Client) : Prop :=
  charListLe (nameKey a) (nameKey b) = true

instance : DecidableRel clientLe := fun a b =>
  inferInstanceAs (Decidable (charListLe (nameKey a) (nameKey b) = true))

/-- The shared normalization of both lookups (`app.py` lines 278-283 and
295-300): project to `{id, name}`, keep items whose `visible` flag is not
falsy (absent defaults to visible), then stable-sort by lowered name. -/
def kimaiNormalize (items : List Item) : List Client :=
  List.insertionSort clientLe
    ((items.filter (fun i => i.visible.getD true)).map
      (fun i => ⟨i.id, i.name⟩))

/-- One cache slot: `{"data": ..., "expires_at": ...}`. -/
structure CacheEntry where
  data : List Client
  expires_at : Nat
deriving DecidableEq

/-- `_kimai_cache`: key to entry. -/
abbrev Cache := String → Option CacheEntry

/-- The cache at process start. -/
def emptyCache : Cache := fun _ => none

/-- What one `requests.get` against the configured upstream would observe:
a raised `RequestException` (with its rendered text), or a response with
status, body text and, when the body decodes as JSON, the decoded list. -/
inductive UpstreamOutcome
  | transportFail (exc : String)
  | response (status : Nat) (text : String) (json : Option (List Item))

/-- Message of the `KimaiError` raised at `app.py` line 307. -/
def ncMsg1 : String :=
  "Kimai is not configured (missing KIMAI_URL or KIMAI_TOKEN)"

/-- Message of the `KimaiError` raised at `app.py` line 262. -/
def ncMsg2 : String :=
  "KIMAI_USER required for xauth mode"

/-- `_kimai_headers` (`app.py` lines 254-266), reduced to whether it
raises: in xauth mode a falsy `KIMAI_USER` raises `ncMsg2`. -/
def kimai_headers (cfg : KimaiConfig) : Except String Unit :=
  if cfg.auth = "xauth" then
    if ostrFalsy cfg.user then .error ncMsg2 else .ok ()
  else .ok ()

/-- Result of `_kimai_request`, together with whether `requests.get` was
reached. -/
structure ReqResult where
  result : Except String (List Item)
  networkCalled : Bool

/-- `_kimai_request` (`app.py` lines 305-322). The requested path only
selects the upstream endpoint; what that endpoint does is the
`UpstreamOutcome` parameter. -/
def kimai_request (cfg : KimaiConfig) (outcome : UpstreamOutcome) : ReqResult :=
  if ostrFalsy cfg.url || ostrFalsy cfg.token then
    ⟨.error ncMsg1, false⟩
  else
    match kimai_headers cfg with
    | .error e => ⟨.error e, false⟩
    | .ok _ =>
      match outcome with
      | .transportFail exc =>
        ⟨.error ("Kimai request failed: " ++ exc), true⟩
      | .response status text json =>
        if 400 ≤ status then
          ⟨.error ("Kimai error " ++ (toString status ++ (": " ++ text))), true⟩
        else
          match json with
          | none => ⟨.error "Invalid JSON from Kimai", true⟩
          | some items => ⟨.ok items, true⟩

/-- Result, cache and network activity of one lookup call. -/
structure LookupResult where
  result : Except String (List Client)
  cache : Cache
  networkCalled : Bool

/-- `cached and cached["expires_at"] > time.time()`: the payload when a
still-valid entry exists. -/
def cacheHit (cache : Cache) (key : String) (now : Nat) : Option (List Client) :=
  match cache key with
  | some entry => if now < entry.expires_at then some entry.data else none
  | none => none

/-- The shared miss path of both lookups: call upstream, and only on
success normalize, store under `key` with expiry `now + ttl`, and return. -/
def kimaiLookupMiss (cfg : KimaiConfig) (cache : Cache) (now ttl : Nat)
    (outcome : UpstreamOutcome) (key : String) : LookupResult :=
  let r := kimai_request cfg outcome
  match r.result with
  | .error e => ⟨.error e, cache, r.networkCalled⟩
  | .ok items =>
    let cs := kimaiNormalize items
    ⟨.ok cs,
     fun k => if k = key then some ⟨cs, now + ttl⟩ else cache k,
     r.networkCalled⟩

/-- `_kimai_get_clients` (`app.py` lines 269-285): constant cache key
`"clients"`. -/
def kimai_get_clients (cfg : KimaiConfig) (cache : Cache) (now ttl : Nat)
    (outcome : UpstreamOutcome) : LookupResult :=
  match cacheHit cache "clients" now with
  | some payload => ⟨.ok payload, cache, false⟩
  | none => kimaiLookupMiss cfg cache now ttl outcome "clients"

/-- `_kimai_get_projects` (`app.py` lines 288-302): cache key
`f"projects:{client_id}"`. -/
def kimai_get_projects (cfg : KimaiConfig) (clientId : String) (cache : Cache)
    (now ttl : Nat) (outcome : UpstreamOutcome) : LookupResult :=
  match cacheHit cache ("projects:" ++ clientId) now with
  | some payload => ⟨.ok payload, cache, false⟩
  | none => kimaiLookupMiss cfg cache now ttl outcome ("projects:" ++ clientId)

/-- One inbound lookup request, with the instant, TTL and network weather
of that call. -/
inductive CallDesc
  | clients (now ttl : Nat) (outcome : UpstreamOutcome)
  | projects (clientId : String) (now ttl : Nat) (outcome : UpstreamOutcome)

/-- Cache state after serving one request. -/
def stepCache (cfg : KimaiConfig) (cache : Cache) : CallDesc → Cache
  | .clients now ttl outcome => (kimai_get_clients cfg cache now ttl outcome).cache
  | .projects cid now ttl outcome =>
    (kimai_get_projects cfg cid cache now ttl outcome).cache

/-- Cache reachable from process start by a sequence of lookup requests
under the fixed load-time configuration. -/
def runCalls (cfg : KimaiConfig) (calls : List CallDesc) : Cache :=
  calls.foldl (stepCache cfg) emptyCache

/-- Recognizer for the two configuration-error messages. -/
def isNcMessage (m : String) : Bool :=
  m == ncMsg1 || m == ncMsg2

/-- The configuration is incomplete for the selected auth mode. -/
def configFailure (cfg : KimaiConfig) : Prop :=
  ostrFalsy cfg.url = true ∨ ostrFalsy cfg.token = true ∨
    (cfg.auth = "xauth" ∧ ostrFalsy cfg.user = true)

/-! ## Theorems -/

/-- C1: a submission in which at least one required field is absent or
empty is rejected with the `MissingFields` error; the reported list is a
subsequence of `REQUIRED_FIELDS` (hence in canonical order) containing a
field iff it is required and falsy, no row is inserted, no CSV append or
store insert happens. -/
theorem create_slip_missing (data : Data) (now slipId : String)
    (insertOk : Bool) (store : List Data) (files : Files) (today : Date)
    (h : missingFields data ≠ []) :
    (create_slip data now slipId insertOk store files today).result
        = .missingFieldsErr (missingFields data) ∧
    (create_slip data now slipId insertOk store files today).store = store ∧
    (create_slip data now slipId insertOk store files today).files = files ∧
    (create_slip data now slipId insertOk store files today).events = [] ∧
    List.Sublist (missingFields data) REQUIRED_FIELDS ∧
    ∀ f, f ∈ missingFields data ↔ f ∈ REQUIRED_FIELDS ∧ falsy (dget data f) = true := by
  refine ⟨?_, ?_, ?_, ?_, List.filter_sublist _, fun f => ?_⟩
  · simp [create_slip, h]
  · simp [create_slip, h]
  · simp [create_slip, h]
  · simp [create_slip, h]
  · simp [missingFields, List.mem_filter]

/-- C1 witness: the empty submission is rejected naming all nine required
fields in canonical order, with store and exports untouched. -/
theorem create_slip_missing_witness :
    missingFields [] ≠ [] ∧
    (create_slip [] "2024-05-01T00:00:00Z" "uuid-1" true [] emptyFiles
        ⟨2024, 5, 1⟩).result = .missingFieldsErr REQUIRED_FIELDS :=
  ⟨by decide,
   by
    have h := (create_slip_missing [] "2024-05-01T00:00:00Z" "uuid-1" true []
      emptyFiles ⟨2024, 5, 1⟩ (by decide)).1
    simpa using h⟩

/-- `_valid_time_order` accepts exactly when both strings parse as H:M and
the start is strictly before the end on the shared reference day. -/
theorem valid_time_order_iff (s e : String) :
    valid_time_order s e = true ↔
      ∃ a b, parseHM s = some a ∧ parseHM e = some b ∧
        (a.1 < b.1 ∨ (a.1 = b.1 ∧ a.2 < b.2)) := by
  rcases hs : parseHM s with _ | a <;> rcases he : parseHM e with _ | b <;>
    simp [valid_time_order, hs, he, hmLt]

/-- C2: with all required fields present, the submission is rejected with
`InvalidTimeOrder` exactly when `start_time` or `end_time` fails to parse
as 24-hour hour:minute or the parsed start is not strictly before the
parsed end (so any overnight window is rejected); on rejection nothing is
persisted and no side effect runs. -/
theorem create_slip_time_order (data : Data) (now slipId : String)
    (insertOk : Bool) (store : List Data) (files : Files) (today : Date)
    (h : missingFields data = []) :
    ((create_slip data now slipId insertOk store files today).result
        = .invalidTimeOrderErr ↔
      ¬ ∃ a b, parseHM (dgetD data "start_time" "") = some a ∧
        parseHM (dgetD data "end_time" "") = some b ∧
        (a.1 < b.1 ∨ (a.1 = b.1 ∧ a.2 < b.2))) ∧
    ((create_slip data now slipId insertOk store files today).result
        = .invalidTimeOrderErr →
      (create_slip data now slipId insertOk store files today).store = store ∧
      (create_slip data now slipId insertOk store files today).files = files ∧
      (create_slip data now slipId insertOk store files today).events = []) := by
  have hiff := valid_time_order_iff (dgetD data "start_time" "")
    (dgetD data "end_time" "")
  cases hv : valid_time_order (dgetD data "start_time" "")
      (dgetD data "end_time" "") with
  | true =>
    have hex := hiff.mp hv
    have hres : (create_slip data now slipId insertOk store files today).result
        ≠ .invalidTimeOrderErr := by
      cases insertOk <;> simp [create_slip, h, hv]
    exact ⟨⟨fun hr => absurd hr hres, fun hr => absurd hex hr⟩,
           fun hr => absurd hr hres⟩
  | false =>
    have hnex : ¬ ∃ a b, parseHM (dgetD data "start_time" "") = some a ∧
        parseHM (dgetD data "end_time" "") = some b ∧
        (a.1 < b.1 ∨ (a.1 = b.1 ∧ a.2 < b.2)) := fun hex => by
      simp [hiff.mpr hex] at hv
    have hres : create_slip data now slipId insertOk store files today
        = ⟨.invalidTimeOrderErr, store, files, []⟩ := by
      simp [create_slip, h, hv]
    rw [hres]
    exact ⟨⟨fun _ => hnex, fun _ => rfl⟩, fun _ => ⟨rfl, rfl, rfl⟩⟩

/-- Concrete scenario B submission: valid fields, start 16:00, end 09:00. -/
def dataB : Data :=
  [("date", "2024-05-01"), ("driver", "J. Doe"), ("truck_number", "T-12"),
   ("job", "J100"), ("haul_to", "Site B"), ("start_time", "16:00"),
   ("end_time", "09:00"), ("material", "Gravel"), ("signature_name", "J. Doe")]

/-- C2 witness: scenario B (start 16:00, end 09:00) is rejected as an
invalid time order and persists nothing. -/
theorem create_slip_time_order_witness :
    missingFields dataB = [] ∧
    (create_slip dataB "2024-05-01T16:05:00Z" "uuid-2" true [] emptyFiles
        ⟨2024, 5, 1⟩).result = .invalidTimeOrderErr ∧
    (create_slip dataB "2024-05-01T16:05:00Z" "uuid-2" true [] emptyFiles
        ⟨2024, 5, 1⟩).store = [] :=
  ⟨by decide, by decide,
   ((create_slip_time_order dataB "2024-05-01T16:05:00Z" "uuid-2" true []
      emptyFiles ⟨2024, 5, 1⟩ (by decide)).2 (by decide)).1⟩

/-- C3: once validation passes, the store insert strictly precedes the CSV
append in the event trace; when the insert fails the slip is not accepted,
the store is unchanged and the CSV append is never attempted, while a
successful insert is followed by exactly one append to the daily file. -/
theorem create_slip_persist_then_export (data : Data) (now slipId : String)
    (store : List Data) (files : Files) (today : Date)
    (h1 : missingFields data = [])
    (h2 : valid_time_order (dgetD data "start_time" "")
        (dgetD data "end_time" "") = true) :
    ((create_slip data now slipId false store files today).result
        = .storageErr ∧
     (create_slip data now slipId false store files today).store = store ∧
     (create_slip data now slipId false store files today).files = files ∧
     Event.csvAppend ∉ (create_slip data now slipId false store files today).events) ∧
    ((create_slip data now slipId true store files today).events
        = [.storeInsert, .csvAppend] ∧
     (create_slip data now slipId true store files today).store
        = store ++ [buildSlip data now slipId] ∧
     (create_slip data now slipId true store files today).files
        = append_csv_export files today (buildSlip data now slipId)) := by
  refine ⟨⟨?_, ?_, ?_, ?_⟩, ?_, ?_, ?_⟩ <;> simp [create_slip, h1, h2]

/-- Concrete scenario A submission: all nine required fields, no optional
fields, start 07:00, end 15:30. -/
def dataA : Data :=
  [("date", "2024-05-01"), ("driver", "J. Doe"), ("truck_number", "T-12"),
   ("job", "J100"), ("haul_to", "Site B"), ("start_time", "07:00"),
   ("end_time", "15:30"), ("material", "Gravel"), ("signature_name", "J. Doe")]

/-- C3 witness: on scenario A with a failing insert, the slip is not
accepted and the export directory is untouched. -/
theorem create_slip_persist_then_export_witness :
    missingFields dataA = [] ∧
    valid_time_order (dgetD dataA "start_time" "")
        (dgetD dataA "end_time" "") = true ∧
    (create_slip dataA "2024-05-01T16:05:00Z" "uuid-3" false [] emptyFiles
        ⟨2024, 5, 1⟩).result = .storageErr :=
  ⟨by decide, by decide,
   (create_slip_persist_then_export dataA "2024-05-01T16:05:00Z" "uuid-3" []
      emptyFiles ⟨2024, 5, 1⟩ (by decide) (by decide)).1.1⟩

/-- Appending to an already existing daily file only adds data rows. -/
theorem foldl_append_existing (today : Date) :
    ∀ (slips : List Data) (files : Files) (c : List (List String)),
      files (exportFileName today) = some c →
      (slips.foldl (fun fs s => append_csv_export fs today s) files)
          (exportFileName today) = some (c ++ slips.map csvRow) := by
  intro slips
  induction slips with
  | nil => intro files c h; simpa using h
  | cons s rest ih =>
    intro files c h
    have hstep : (append_csv_export files today s) (exportFileName today)
        = some (c ++ [csvRow s]) := by
      simp [append_csv_export, h]
    have := ih (append_csv_export files today s) (c ++ [csvRow s]) hstep
    simpa using this

/-- Appends to today's file leave every other file unchanged. -/
theorem foldl_append_untouched (today : Date) :
    ∀ (slips : List Data) (files : Files) (n : String),
      n ≠ exportFileName today →
      (slips.foldl (fun fs s => append_csv_export fs today s) files) n
        = files n := by
  intro slips
  induction slips with
  | nil => intro files n _; rfl
  | cons s rest ih =>
    intro files n hn
    have hstep : (append_csv_export files today s) n = files n := by
      simp [append_csv_export, hn]
    rw [List.foldl_cons, ih (append_csv_export files today s) n hn, hstep]

/-- C7: on a day whose export file does not yet exist, any positive number
of `_append_csv_export` calls produces exactly one header row followed by
one data row per slip in arrival order; every row follows the fixed
15-column field order with missing keys rendered as the empty string,
other files are untouched, the full-history render has the same header and
row shape, and the daily file is named `slips-<YYYY-MM-DD>.csv`. -/
theorem csv_export_shape (today : Date) (files : Files) (s0 : Data)
    (rest : List Data) (rows : List Data)
    (h : files (exportFileName today) = none) :
    ((s0 :: rest).foldl (fun fs x => append_csv_export fs today x) files)
        (exportFileName today)
      = some (FIELDNAMES :: (s0 :: rest).map csvRow) ∧
    (∀ n, n ≠ exportFileName today →
      ((s0 :: rest).foldl (fun fs x => append_csv_export fs today x) files) n
        = files n) ∧
    rows_to_csv rows = FIELDNAMES :: rows.map csvRow ∧
    (∀ slip, csvRow slip = FIELDNAMES.map (fun k => dgetD slip k "")) ∧
    csvRow [] = List.replicate 15 "" ∧
    exportFileName today = "slips-" ++ isoDate today ++ ".csv" := by
  refine ⟨?_, foldl_append_untouched today _ files, rfl, fun _ => rfl, rfl, rfl⟩
  have hstep : (append_csv_export files today s0) (exportFileName today)
      = some [FIELDNAMES, csvRow s0] := by
    simp [append_csv_export, h]
  have := foldl_append_existing today rest (append_csv_export files today s0)
    [FIELDNAMES, csvRow s0] hstep
  simpa using this

/-- C7 witness: a single append to a fresh export directory creates
today's file with exactly the header row and one data row. -/
theorem csv_export_shape_witness :
    emptyFiles (exportFileName ⟨2024, 5, 1⟩) = none ∧
    ([dataA].foldl (fun fs x => append_csv_export fs ⟨2024, 5, 1⟩ x)
        emptyFiles) (exportFileName ⟨2024, 5, 1⟩)
      = some (FIELDNAMES :: [csvRow dataA]) :=
  ⟨rfl, by
    simpa using (csv_export_shape ⟨2024, 5, 1⟩ emptyFiles dataA [] [] rfl).1⟩

/-- An accepted `create_slip` call returned exactly the normalized slip
built at lines 78-94 and appended it to the store and the daily export. -/
theorem create_slip_created_eq (data : Data) (now slipId : String)
    (store : List Data) (files : Files) (today : Date) (slip : Data)
    (h : (create_slip data now slipId true store files today).result
        = .created slip) :
    slip = buildSlip data now slipId ∧
    create_slip data now slipId true store files today
      = ⟨.created (buildSlip data now slipId),
         store ++ [buildSlip data now slipId],
         append_csv_export files today (buildSlip data now slipId),
         [.storeInsert, .csvAppend]⟩ := by
  by_cases h1 : missingFields data = []
  · by_cases h2 : valid_time_order (dgetD data "start_time" "")
        (dgetD data "end_time" "") = true
    · have he : create_slip data now slipId true store files today
          = ⟨.created (buildSlip data now slipId),
             store ++ [buildSlip data now slipId],
             append_csv_export files today (buildSlip data now slipId),
             [.storeInsert, .csvAppend]⟩ := by
        simp [create_slip, h1, h2]
      have h' : CreateResult.created (buildSlip data now slipId)
          = CreateResult.created slip := by rw [he] at h; exact h
      injection h' with h''
      exact ⟨h''.symm, he⟩
    · exfalso
      simp [create_slip, h1, h2] at h
  · exfalso
    simp [create_slip, h1] at h

/-- C9: an accepted submission is stored and read back with exactly the
submitted values: all nine required fields verbatim, the three optional
fields always present (defaulting to the empty string when absent or
empty), equal creation and update timestamps; listing never alters a
stored row, and a store that fits in the limit window lists the new
slip. -/
theorem create_slip_roundtrip (data : Data) (now slipId : String)
    (store : List Data) (files : Files) (today : Date) (slip : Data)
    (h : (create_slip data now slipId true store files today).result
        = .created slip) :
    (∀ f, f ∈ REQUIRED_FIELDS → dget slip f = some (dgetD data f "")) ∧
    dget slip "id" = some slipId ∧
    dget slip "foreman" = some (dgetD data "foreman" "") ∧
    dget slip "haul_from" = some (dgetD data "haul_from" "") ∧
    dget slip "notes" = some (dgetD data "notes" "") ∧
    dget slip "created_at" = some now ∧
    dget slip "updated_at" = some now ∧
    slip ∈ (create_slip data now slipId true store files today).store ∧
    (∀ limit x,
      x ∈ list_slips (create_slip data now slipId true store files today).store
        limit →
      x ∈ (create_slip data now slipId true store files today).store) ∧
    (∀ limit, store.length + 1 ≤ limit →
      slip ∈ list_slips
        (create_slip data now slipId true store files today).store limit) := by
  obtain ⟨hs, he⟩ := create_slip_created_eq data now slipId store files today slip h
  subst hs
  rw [he]
  refine ⟨?_, rfl, rfl, rfl, rfl, rfl, rfl, by simp, ?_, ?_⟩
  · intro f hf
    simp only [REQUIRED_FIELDS, List.mem_cons, List.not_mem_nil, or_false] at hf
    rcases hf with rfl | rfl | rfl | rfl | rfl | rfl | rfl | rfl | rfl <;> rfl
  · intro limit x hx
    simp only [list_slips] at hx
    exact (List.perm_insertionSort slipBefore _).mem_iff.mp
      (List.mem_of_mem_take hx)
  · intro limit hlim
    simp only [list_slips]
    rw [List.take_of_length_le]
    · exact (List.perm_insertionSort slipBefore _).mem_iff.mpr (by simp)
    · rw [(List.perm_insertionSort slipBefore _).length_eq]
      simpa using hlim

/-- C9 witness: scenario A is accepted; the stored slip carries the
submitted values, reads back `foreman` as the empty string, and sits in
the store. -/
theorem create_slip_roundtrip_witness :
    (create_slip dataA "2024-05-01T16:05:00Z" "uuid-4" true [] emptyFiles
        ⟨2024, 5, 1⟩).result
      = .created (buildSlip dataA "2024-05-01T16:05:00Z" "uuid-4") ∧
    dgetD dataA "foreman" "" = "" ∧
    dget (buildSlip dataA "2024-05-01T16:05:00Z" "uuid-4") "foreman"
      = some (dgetD dataA "foreman" "") ∧
    buildSlip dataA "2024-05-01T16:05:00Z" "uuid-4"
      ∈ (create_slip dataA "2024-05-01T16:05:00Z" "uuid-4" true [] emptyFiles
          ⟨2024, 5, 1⟩).store :=
  ⟨by decide, by decide,
   (create_slip_roundtrip dataA "2024-05-01T16:05:00Z" "uuid-4" [] emptyFiles
      ⟨2024, 5, 1⟩ _ (by decide)).2.2.1,
   (create_slip_roundtrip dataA "2024-05-01T16:05:00Z" "uuid-4" [] emptyFiles
      ⟨2024, 5, 1⟩ _ (by decide)).2.2.2.2.2.2.2.1⟩

/-- A value stored under a fieldname key appears in the rendered CSV row. -/
theorem mem_csvRow {slip : Data} {f v : String} (hf : f ∈ FIELDNAMES)
    (hv : dget slip f = some v) : v ∈ csvRow slip := by
  unfold csvRow
  exact List.mem_map.mpr ⟨f, hf, by simp [dgetD, hv]⟩

/-- A submitted value reaching `buildSlip` unchanged is stored and
exported verbatim. -/
theorem buildSlip_data_field (data : Data) (now slipId : String) (f v : String)
    (hf : f ∈ FIELDNAMES)
    (heq : dget (buildSlip data now slipId) f = some (dgetD data f ""))
    (hv : dget data f = some v) :
    dget (buildSlip data now slipId) f = some v ∧
      v ∈ csvRow (buildSlip data now slipId) := by
  have hdg : dgetD data f "" = v := by simp [dgetD, hv]
  rw [hdg] at heq
  exact ⟨heq, mem_csvRow hf heq⟩

/-- C10: the validator only tests falsiness and never trims: a required
field bound to any non-empty string (in particular a whitespace-only one)
passes the presence check, and every submitted value of an accepted slip
is persisted and exported byte-for-byte as provided. -/
theorem create_slip_no_trim :
    (∀ data f v, f ∈ REQUIRED_FIELDS → dget data f = some v → v ≠ "" →
      f ∉ missingFields data) ∧
    (∀ data now slipId store files today slip,
      (create_slip data now slipId true store files today).result
        = .created slip →
      ∀ f v, f ∈ FIELDNAMES → f ≠ "id" → f ≠ "created_at" →
        f ≠ "updated_at" → dget data f = some v →
        dget slip f = some v ∧ v ∈ csvRow slip) := by
  constructor
  · intro data f v _ hv hne
    simp [missingFields, List.mem_filter, falsy, hv, hne]
  · intro data now slipId store files today slip h f v hf hid hca hua hv
    obtain ⟨hs, _⟩ := create_slip_created_eq data now slipId store files today
      slip h
    subst hs
    simp only [FIELDNAMES, List.mem_cons, List.not_mem_nil, or_false] at hf
    rcases hf with rfl | rfl | rfl | rfl | rfl | rfl | rfl | rfl | rfl | rfl |
      rfl | rfl | rfl | rfl | rfl
    all_goals first
      | exact absurd rfl hid
      | exact absurd rfl hca
      | exact absurd rfl hua
      | exact buildSlip_data_field data now slipId _ v (by decide) rfl hv

/-- C10 witness: a whitespace-padded driver name passes the presence check
and an accepted slip stores such a value unchanged. -/
theorem create_slip_no_trim_witness :
    dget [("driver", " J. Doe ")] "driver" = some " J. Doe " ∧
    " J. Doe " ≠ "" ∧
    "driver" ∉ missingFields [("driver", " J. Doe ")] :=
  ⟨by decide, by decide,
   create_slip_no_trim.1 [("driver", " J. Doe ")] "driver" " J. Doe "
     (by decide) (by decide) (by decide)⟩

/-- A failing miss path leaves the cache untouched. -/
theorem lookupMiss_error_cache (cfg : KimaiConfig) (cache : Cache)
    (now ttl : Nat) (outcome : UpstreamOutcome) (key : String) (m : String)
    (h : (kimaiLookupMiss cfg cache now ttl outcome key).result = .error m) :
    (kimaiLookupMiss cfg cache now ttl outcome key).cache = cache := by
  simp only [kimaiLookupMiss] at h ⊢
  cases hr : (kimai_request cfg outcome).result with
  | error e => simp [hr]
  | ok items => simp [hr] at h

/-- C4: a lookup whose upstream call fails neither populates nor
invalidates the cache, and a lookup that finds a still-valid cached entry
returns that payload unchanged, leaves the cache as is and never invokes
the upstream client. -/
theorem kimai_cache_isolation (cfg : KimaiConfig) (cache : Cache)
    (now ttl : Nat) (outcome : UpstreamOutcome) (cid : String) :
    (∀ m, (kimai_get_clients cfg cache now ttl outcome).result = .error m →
      (kimai_get_clients cfg cache now ttl outcome).cache = cache) ∧
    (∀ m, (kimai_get_projects cfg cid cache now ttl outcome).result
        = .error m →
      (kimai_get_projects cfg cid cache now ttl outcome).cache = cache) ∧
    (∀ entry, cache "clients" = some entry → now < entry.expires_at →
      kimai_get_clients cfg cache now ttl outcome
        = ⟨.ok entry.data, cache, false⟩) ∧
    (∀ entry, cache ("projects:" ++ cid) = some entry →
      now < entry.expires_at →
      kimai_get_projects cfg cid cache now ttl outcome
        = ⟨.ok entry.data, cache, false⟩) := by
  refine ⟨?_, ?_, ?_, ?_⟩
  · intro m h
    unfold kimai_get_clients at h ⊢
    cases hc : cacheHit cache "clients" now with
    | some payload =>
      rw [hc] at h
    | none =>
      rw [hc] at h
      exact lookupMiss_error_cache cfg cache now ttl outcome "clients" m h
  · intro m h
    unfold kimai_get_projects at h ⊢
    cases hc : cacheHit cache ("projects:" ++ cid) now with
    | some payload =>
      rw [hc] at h
    | none =>
      rw [hc] at h
      exact lookupMiss_error_cache cfg cache now ttl outcome
        ("projects:" ++ cid) m h
  · intro entry hk hlt
    unfold kimai_get_clients
    rw [show cacheHit cache "clients" now = some entry.data from by
      simp [cacheHit, hk, hlt]]
  · intro entry hk hlt
    unfold kimai_get_projects
    rw [show cacheHit cache ("projects:" ++ cid) now = some entry.data from by
      simp [cacheHit, hk, hlt]]

/-- A cache holding one still-valid clients entry (as after a successful
first call at time 0 with a 300-second TTL). -/
def cacheWithClients : Cache := fun k =>
  if k = "clients" then some ⟨[⟨some 1, some "Acme"⟩], 300⟩ else none

/-- C4 witness: scenario C, second call — the upstream is unreachable but
the valid cached payload is served unchanged with no network call. -/
theorem kimai_cache_isolation_witness :
    cacheWithClients "clients" = some ⟨[⟨some 1, some "Acme"⟩], 300⟩ ∧
    (50 : Nat) < 300 ∧
    kimai_get_clients ⟨some "https://kimai.example", none, some "tok", "token"⟩
        cacheWithClients 50 300 (.transportFail "connection refused")
      = ⟨.ok [⟨some 1, some "Acme"⟩], cacheWithClients, false⟩ :=
  ⟨rfl, by decide,
   (kimai_cache_isolation ⟨some "https://kimai.example", none, some "tok",
      "token"⟩ cacheWithClients 50 300 (.transportFail "connection refused")
      "1").2.2.1 ⟨[⟨some 1, some "Acme"⟩], 300⟩ rfl (by decide)⟩

/-- While the base URL or token is falsy, `_kimai_request` raises the
configuration error before any network activity. -/
theorem kimai_request_not_configured (cfg : KimaiConfig)
    (hnc : ostrFalsy cfg.url = true ∨ ostrFalsy cfg.token = true)
    (outcome : UpstreamOutcome) :
    kimai_request cfg outcome = ⟨.error ncMsg1, false⟩ := by
  unfold kimai_request
  rcases hnc with hnc | hnc <;> simp [hnc]

/-- Under an unconfigured integration no lookup sequence ever populates
the cache. -/
theorem runCalls_not_configured (cfg : KimaiConfig)
    (hnc : ostrFalsy cfg.url = true ∨ ostrFalsy cfg.token = true)
    (calls : List CallDesc) :
    runCalls cfg calls = emptyCache := by
  have hstep : ∀ c, stepCache cfg emptyCache c = emptyCache := by
    intro c
    cases c with
    | clients now ttl o =>
      simp [stepCache, kimai_get_clients, cacheHit, emptyCache,
        kimaiLookupMiss, kimai_request_not_configured cfg hnc o]
    | projects cid now ttl o =>
      simp [stepCache, kimai_get_projects, cacheHit, emptyCache,
        kimaiLookupMiss, kimai_request_not_configured cfg hnc o]
  unfold runCalls
  induction calls with
  | nil => rfl
  | cons c rest ih => rw [List.foldl_cons, hstep c]; exact ih

/-- C5: while the base URL or the token is unset or empty, both lookups
fail immediately with the `NotConfigured` message in every reachable cache
state, and no network call is attempted. -/
theorem kimai_not_configured (cfg : KimaiConfig)
    (hnc : ostrFalsy cfg.url = true ∨ ostrFalsy cfg.token = true)
    (calls : List CallDesc) (now ttl : Nat) (outcome : UpstreamOutcome)
    (cid : String) :
    kimai_get_clients cfg (runCalls cfg calls) now ttl outcome
      = ⟨.error ncMsg1, runCalls cfg calls, false⟩ ∧
    kimai_get_projects cfg cid (runCalls cfg calls) now ttl outcome
      = ⟨.error ncMsg1, runCalls cfg calls, false⟩ ∧
    isNcMessage ncMsg1 = true := by
  rw [runCalls_not_configured cfg hnc calls]
  refine ⟨?_, ?_, by decide⟩ <;>
    simp [kimai_get_clients, kimai_get_projects, cacheHit, emptyCache,
      kimaiLookupMiss, kimai_request_not_configured cfg hnc outcome]

/-- C5 witness: with no URL configured, `getClients` from the initial
state fails with the `NotConfigured` message without calling upstream. -/
theorem kimai_not_configured_witness :
    ostrFalsy (KimaiConfig.mk none (some "u") (some "tok") "token").url
      = true ∧
    kimai_get_clients ⟨none, some "u", some "tok", "token"⟩
        (runCalls ⟨none, some "u", some "tok", "token"⟩ []) 0 300
        (.response 200 "ok" (some []))
      = ⟨.error ncMsg1, runCalls ⟨none, some "u", some "tok", "token"⟩ [],
         false⟩ :=
  ⟨by decide,
   (kimai_not_configured ⟨none, some "u", some "tok", "token"⟩
      (Or.inl (by decide)) [] 0 300 (.response 200 "ok" (some [])) "7").1⟩

/-- A string extending a fixed prefix differs from any string that does
not start with that prefix. -/
theorem append_ne_of_take_ne (p s t : String)
    (h : List.take p.data.length t.data ≠ p.data) : p ++ s ≠ t := by
  intro he
  apply h
  rw [← he, String.data_append]
  exact List.take_left p.data s.data

/-- Transport-failure messages are never the configuration messages. -/
theorem transport_msg_not_nc (exc : String) :
    isNcMessage ("Kimai request failed: " ++ exc) = false := by
  have h1 := append_ne_of_take_ne "Kimai request failed: " exc ncMsg1 (by decide)
  have h2 := append_ne_of_take_ne "Kimai request failed: " exc ncMsg2 (by decide)
  unfold isNcMessage
  rw [Bool.or_eq_false_iff]
  exact ⟨beq_eq_false_iff_ne.mpr h1, beq_eq_false_iff_ne.mpr h2⟩

/-- HTTP-status messages are never the configuration messages. -/
theorem status_msg_not_nc (status : Nat) (text : String) :
    isNcMessage ("Kimai error " ++ (toString status ++ (": " ++ text)))
      = false := by
  have h1 := append_ne_of_take_ne "Kimai error "
    (toString status ++ (": " ++ text)) ncMsg1 (by decide)
  have h2 := append_ne_of_take_ne "Kimai error "
    (toString status ++ (": " ++ text)) ncMsg2 (by decide)
  unfold isNcMessage
  rw [Bool.or_eq_false_iff]
  exact ⟨beq_eq_false_iff_ne.mpr h1, beq_eq_false_iff_ne.mpr h2⟩

/-- A fully configured `_kimai_request` only surfaces upstream messages,
none of which is a configuration message. -/
theorem kimai_net_error_not_nc (cfg : KimaiConfig) (outcome : UpstreamOutcome)
    (m : String)
    (hcfg : (ostrFalsy cfg.url || ostrFalsy cfg.token) = false)
    (hh : kimai_headers cfg = .ok ())
    (h : (kimai_request cfg outcome).result = .error m) :
    isNcMessage m = false := by
  unfold kimai_request at h
  rw [if_neg (by simp [hcfg]), hh] at h
  cases outcome with
  | transportFail exc =>
    have hm : Except.error (α := List Item) ("Kimai request failed: " ++ exc)
        = .error m := h
    injection hm with hm
    rw [← hm]
    exact transport_msg_not_nc exc
  | response status text json =>
    cases json with
    | none =>
      have h2 : (if 400 ≤ status then
          (⟨.error ("Kimai error " ++ (toString status ++ (": " ++ text))),
            true⟩ : ReqResult)
        else ⟨.error "Invalid JSON from Kimai", true⟩).result = .error m := h
      by_cases hs : 400 ≤ status
      · rw [if_pos hs] at h2
        have hm : Except.error (α := List Item)
            ("Kimai error " ++ (toString status ++ (": " ++ text)))
            = .error m := h2
        injection hm with hm
        rw [← hm]
        exact status_msg_not_nc status text
      · rw [if_neg hs] at h2
        have hm : Except.error (α := List Item) "Invalid JSON from Kimai"
            = .error m := h2
        injection hm with hm
        rw [← hm]
        decide
    | some items =>
      have h2 : (if 400 ≤ status then
          (⟨.error ("Kimai error " ++ (toString status ++ (": " ++ text))),
            true⟩ : ReqResult)
        else ⟨.ok items, true⟩).result = .error m := h
      by_cases hs : 400 ≤ status
      · rw [if_pos hs] at h2
        have hm : Except.error (α := List Item)
            ("Kimai error " ++ (toString status ++ (": " ++ text)))
            = .error m := h2
        injection hm with hm
        rw [← hm]
        exact status_msg_not_nc status text
      · rw [if_neg hs] at h2
        exact absurd (show Except.ok (ε := String) items = .error m from h2)
          (by simp)

/-- Any error raised by `_kimai_request` is a configuration message iff
the configuration is incomplete for the selected auth mode. -/
theorem kimai_request_error_nc (cfg : KimaiConfig) (outcome : UpstreamOutcome)
    (m : String)
    (h : (kimai_request cfg outcome).result = .error m) :
    (isNcMessage m = true ↔ configFailure cfg) := by
  by_cases hu : (ostrFalsy cfg.url || ostrFalsy cfg.token) = true
  · have hm : m = ncMsg1 := by
      unfold kimai_request at h
      rw [if_pos hu] at h
      have h2 : Except.error (α := List Item) ncMsg1 = .error m := h
      injection h2 with h2
      exact h2.symm
    subst hm
    constructor
    · intro _
      rcases (by simpa using hu :
          ostrFalsy cfg.url = true ∨ ostrFalsy cfg.token = true) with hc | hc
      · exact Or.inl hc
      · exact Or.inr (Or.inl hc)
    · intro _
      decide
  · obtain ⟨hu1, hu2⟩ : ostrFalsy cfg.url = false ∧ ostrFalsy cfg.token = false := by
      simpa using hu
    have hu' : (ostrFalsy cfg.url || ostrFalsy cfg.token) = false := by
      simp [hu1, hu2]
    by_cases hx : cfg.auth = "xauth"
    · by_cases husr : ostrFalsy cfg.user = true
      · have hm : m = ncMsg2 := by
          unfold kimai_request at h
          rw [if_neg hu,
            show kimai_headers cfg = .error ncMsg2 from by
              simp [kimai_headers, hx, husr]] at h
          have h2 : Except.error (α := List Item) ncMsg2 = .error m := h
          injection h2 with h2
          exact h2.symm
        subst hm
        constructor
        · intro _
          exact Or.inr (Or.inr ⟨hx, husr⟩)
        · intro _
          decide
      · have hh : kimai_headers cfg = .ok () := by
          simp [kimai_headers, hx, husr]
        rw [kimai_net_error_not_nc cfg outcome m hu' hh h]
        simp only [Bool.false_eq_true, false_iff]
        rintro (hc | hc | ⟨_, hc⟩)
        · simp [hu1] at hc
        · simp [hu2] at hc
        · exact husr hc
    · have hh : kimai_headers cfg = .ok () := by
        simp [kimai_headers, hx]
      rw [kimai_net_error_not_nc cfg outcome m hu' hh h]
      simp only [Bool.false_eq_true, false_iff]
      rintro (hc | hc | ⟨hc, _⟩)
      · simp [hu1] at hc
      · simp [hu2] at hc
      · exact hx hc

/-- An error surfaced by the miss path came from `_kimai_request`. -/
theorem lookupMiss_error_msg (cfg : KimaiConfig) (cache : Cache)
    (now ttl : Nat) (outcome : UpstreamOutcome) (key : String) (m : String)
    (h : (kimaiLookupMiss cfg cache now ttl outcome key).result = .error m) :
    (kimai_request cfg outcome).result = .error m := by
  simp only [kimaiLookupMiss] at h
  cases hr : (kimai_request cfg outcome).result with
  | error e =>
    rw [hr] at h
    have h2 : Except.error (α := List Client) e = .error m := h
    injection h2 with h2
    rw [h2]
  | ok items =>
    rw [hr] at h
    simp at h

/-- C6: every error either lookup surfaces carries one of the two fixed
configuration messages exactly when the integration is missing a required
setting (URL, token, or the xauth username), so a caller can distinguish
`NotConfigured` from `UpstreamError` by the returned message alone. -/
theorem kimai_error_taxonomy (cfg : KimaiConfig) (cache : Cache)
    (now ttl : Nat) (outcome : UpstreamOutcome) (cid m : String)
    (h : (kimai_get_clients cfg cache now ttl outcome).result = .error m ∨
      (kimai_get_projects cfg cid cache now ttl outcome).result = .error m) :
    (isNcMessage m = true ↔ configFailure cfg) := by
  have hreq : (kimai_request cfg outcome).result = .error m := by
    rcases h with h | h
    · unfold kimai_get_clients at h
      cases hc : cacheHit cache "clients" now with
      | some payload =>
        rw [hc] at h
        exact absurd (show Except.ok (ε := String) payload = .error m from h)
          (by simp)
      | none =>
        rw [hc] at h
        exact lookupMiss_error_msg cfg cache now ttl outcome "clients" m h
    · unfold kimai_get_projects at h
      cases hc : cacheHit cache ("projects:" ++ cid) now with
      | some payload =>
        rw [hc] at h
        exact absurd (show Except.ok (ε := String) payload = .error m from h)
          (by simp)
      | none =>
        rw [hc] at h
        exact lookupMiss_error_msg cfg cache now ttl outcome
          ("projects:" ++ cid) m h
  exact kimai_request_error_nc cfg outcome m hreq

/-- C6 witness: scenario E flavored — xauth mode without a username
surfaces a message classified as `NotConfigured`. -/
theorem kimai_error_taxonomy_witness :
    (kimai_get_clients ⟨some "https://kimai.example", none, some "tok",
        "xauth"⟩ emptyCache 0 300 (.transportFail "down")).result
      = .error ncMsg2 ∧
    (isNcMessage ncMsg2 = true ↔
      configFailure ⟨some "https://kimai.example", none, some "tok",
        "xauth"⟩) :=
  ⟨rfl,
   kimai_error_taxonomy ⟨some "https://kimai.example", none, some "tok",
      "xauth"⟩ emptyCache 0 300 (.transportFail "down") "1" ncMsg2
      (Or.inl rfl)⟩

/-- The Python string comparison is total. -/
theorem charListLe_total : ∀ a b, charListLe a b = true ∨ charListLe b a = true := by
  intro a
  induction a with
  | nil => intro b; exact Or.inl rfl
  | cons c cs ih =>
    intro b
    cases b with
    | nil => exact Or.inr rfl
    | cons d ds =>
      by_cases h1 : c.toNat < d.toNat
      · left
        simp [charListLe, h1]
      · by_cases h2 : d.toNat < c.toNat
        · right
          simp [charListLe, h2]
        · rcases ih ds with h | h
          · left
            simp [charListLe, h1, h2, h]
          · right
            simp [charListLe, h1, h2, h]

/-- The Python string comparison is transitive. -/
theorem charListLe_trans : ∀ a b c, charListLe a b = true →
    charListLe b c = true → charListLe a c = true := by
  intro a
  induction a with
  | nil => intro b c _ _; rfl
  | cons x xs ih =>
    intro b c hab hbc
    cases b with
    | nil => simp [charListLe] at hab
    | cons y ys =>
      cases c with
      | nil => simp [charListLe] at hbc
      | cons z zs =>
        by_cases hxy : x.toNat < y.toNat
        · by_cases hyz : y.toNat < z.toNat
          · have hxz : x.toNat < z.toNat := Nat.lt_trans hxy hyz
            simp [charListLe, hxz]
          · by_cases hzy : z.toNat < y.toNat
            · simp [charListLe, hyz, hzy] at hbc
            · have heq : y.toNat = z.toNat :=
                Nat.le_antisymm (Nat.not_lt.mp hzy) (Nat.not_lt.mp hyz)
              have hxz : x.toNat < z.toNat := heq ▸ hxy
              simp [charListLe, hxz]
        · by_cases hyx : y.toNat < x.toNat
          · simp [charListLe, hxy, hyx] at hab
          · have hxyeq : x.toNat = y.toNat :=
              Nat.le_antisymm (Nat.not_lt.mp hyx) (Nat.not_lt.mp hxy)
            have hab' : charListLe xs ys = true := by
              simpa [charListLe, hxy, hyx] using hab
            by_cases hyz : y.toNat < z.toNat
            · have hxz : x.toNat < z.toNat := hxyeq ▸ hyz
              simp [charListLe, hxz]
            · by_cases hzy : z.toNat < y.toNat
              · simp [charListLe, hyz, hzy] at hbc
              · have hbc' : charListLe ys zs = true := by
                  simpa [charListLe, hyz, hzy] using hbc
                have hxz : ¬ x.toNat < z.toNat := by omega
                have hzx : ¬ z.toNat < x.toNat := by omega
                simp [charListLe, hxz, hzx, ih ys zs hab' hbc']

instance : IsTotal Client clientLe :=
  ⟨fun a b => charListLe_total (nameKey a) (nameKey b)⟩

instance : IsTrans Client clientLe :=
  ⟨fun _ _ _ h1 h2 => charListLe_trans _ _ _ h1 h2⟩

/-- C8: the lookup normalization keeps exactly the upstream items not
explicitly marked invisible (an absent flag counts as visible), projected
to {id, name}, and emits them ordered by lowered name (null or empty
names keyed as the empty string); on a cache miss with a decodable 2xx
response, both lookups return exactly this normalization of the upstream
list. -/
theorem kimai_lookup_normalization (items : List Item) :
    List.Perm (kimaiNormalize items)
      ((items.filter (fun i => i.visible.getD true)).map
        (fun i => ⟨i.id, i.name⟩)) ∧
    List.Sorted clientLe (kimaiNormalize items) ∧
    (∀ cfg cache now ttl status text,
      ostrFalsy cfg.url = false → ostrFalsy cfg.token = false →
      kimai_headers cfg = .ok () → status < 400 →
      cacheHit cache "clients" now = none →
      (kimai_get_clients cfg cache now ttl
          (.response status text (some items))).result
        = .ok (kimaiNormalize items)) ∧
    (∀ cfg cid cache now ttl status text,
      ostrFalsy cfg.url = false → ostrFalsy cfg.token = false →
      kimai_headers cfg = .ok () → status < 400 →
      cacheHit cache ("projects:" ++ cid) now = none →
      (kimai_get_projects cfg cid cache now ttl
          (.response status text (some items))).result
        = .ok (kimaiNormalize items)) := by
  have hreq : ∀ cfg status text,
      ostrFalsy cfg.url = false → ostrFalsy cfg.token = false →
      kimai_headers cfg = .ok () → status < 400 →
      kimai_request cfg (.response status text (some items))
        = ⟨.ok items, true⟩ := by
    intro cfg status text h1 h2 hh hs
    unfold kimai_request
    rw [if_neg (by simp [h1, h2]), hh]
    show (if 400 ≤ status then
        (⟨.error ("Kimai error " ++ (toString status ++ (": " ++ text))),
          true⟩ : ReqResult)
      else ⟨.ok items, true⟩) = ⟨.ok items, true⟩
    rw [if_neg (by omega)]
  refine ⟨List.perm_insertionSort clientLe _, ?_, ?_, ?_⟩
  · simp only [kimaiNormalize]
    exact List.sorted_insertionSort clientLe _
  · intro cfg cache now ttl status text h1 h2 hh hs hc
    unfold kimai_get_clients
    rw [hc]
    simp [kimaiLookupMiss, hreq cfg status text h1 h2 hh hs]
  · intro cfg cid cache now ttl status text h1 h2 hh hs hc
    unfold kimai_get_projects
    rw [hc]
    simp [kimaiLookupMiss, hreq cfg status text h1 h2 hh hs]

/-- A sample upstream payload: one hidden item, one without a visibility
flag, one visible, with names out of order. -/
def itemsSample : List Item :=
  [⟨some 2, some "Beta", none⟩, ⟨some 1, some "Acme", some false⟩,
   ⟨some 3, some "alpha", some true⟩]

/-- C8 witness: on a cache miss against a configured upstream returning
the sample payload, `getClients` drops the hidden item and returns the
rest sorted case-insensitively. -/
theorem kimai_lookup_normalization_witness :
    kimaiNormalize itemsSample
      = [⟨some 3, some "alpha"⟩, ⟨some 2, some "Beta"⟩] ∧
    (kimai_get_clients ⟨some "https://kimai.example", none, some "tok",
        "token"⟩ emptyCache 0 300
        (.response 200 "body" (some itemsSample))).result
      = .ok (kimaiNormalize itemsSample) :=
  ⟨by rfl,
   (kimai_lookup_normalization itemsSample).2.2.1
     ⟨some "https://kimai.example", none, some "tok", "token"⟩ emptyCache 0
     300 200 "body" (by decide) (by decide) rfl (by decide) rfl⟩

end HaulSlips
